import Mathlib

/-!
Verification development for the TusaBot/Euphoria FastAPI backend
(`api.py`): a REST façade over a posters/stories database with a photo
proxy to the Telegram Bot API.  The definitions below are a shallow
embedding of the endpoint handlers; the database is modelled as explicit
state (lists of rows), HTTP errors as an explicit error value, and the
foreign-platform calls as an oracle plus a trace of the calls issued.
-/

namespace Euphoria

open List

/-- Python `s.startswith(p)`, modelled on the character lists of the strings. -/
def pyStartswith (s p : String) : Bool :=
  p.data.isPrefixOf s.data

/-- Python `s or default` for an optional string: `None` and `""` are falsy. -/
def pyOrDefault (s : Option String) (d : String) : String :=
  match s with
  | none => d
  | some v => if v = "" then d else v

/-- The characters of `cs` strictly before the first occurrence of `sep`. -/
def beforeSep (sep : Char) : List Char → List Char
  | [] => []
  | c :: cs => if c = sep then [] else c :: beforeSep sep cs

/-- The characters of `cs` strictly after the first occurrence of `sep`,
or `none` when `sep` does not occur. -/
def afterSep? (sep : Char) : List Char → Option (List Char)
  | [] => none
  | c :: cs => if c = sep then some cs else afterSep? sep cs

/-- Python `s.split(sep, 1)`: one list element when `sep` is absent
(in particular `"".split(sep, 1) == [""]`), two otherwise. -/
def pySplit1 (sep : Char) (s : String) : List String :=
  match afterSep? sep s.data with
  | none => [s]
  | some rest => [String.mk (beforeSep sep s.data), String.mk rest]

/-- An `HTTPException(status_code, detail)` raised by a handler. -/
structure HTTPError where
  status : Nat
  detail : String
deriving DecidableEq

/-- `api.py` line 42: membership of the caller id in the `ADMIN_IDS` set.
The set is environment-configured, so it is passed explicitly. -/
def is_admin (ADMIN_IDS : List Int) (user_id : Int) : Bool :=
  ADMIN_IDS.contains user_id

/-- The default `ADMIN_IDS` value of `api.py` line 35. -/
def DEFAULT_ADMIN_IDS : List Int := [825042510, 8160172817]

/-! ## Photo Resolver (classification inlined in `get_posters`, `get_latest_poster`, `get_stories`) -/

/-- `api.py` line 179 / 242: the poster endpoints treat a reference as a
local file when it starts with `/posters/` or `posters/`. -/
def posterIsLocal (file_id : String) : Bool :=
  pyStartswith file_id "/posters/" || pyStartswith file_id "posters/"

/-- `api.py` lines 187-192: the client-facing photo URL built by the poster
endpoints. -/
def posterPhotoUrl (file_id : String) : String :=
  if posterIsLocal file_id then
    if pyStartswith file_id "/" then file_id else "/" ++ file_id
  else
    "/photo/" ++ file_id

/-- `api.py` line 407: the story listing treats a reference as a local file
when it starts with `/uploads/` or `uploads/`. -/
def storyIsLocal (file_id : String) : Bool :=
  pyStartswith file_id "/uploads/" || pyStartswith file_id "uploads/"

/-- `api.py` lines 409-412: the client-facing photo URL built by the story
listing. -/
def storyPhotoUrl (file_id : String) : String :=
  if storyIsLocal file_id then
    if pyStartswith file_id "/" then file_id else "/" ++ file_id
  else
    "/photo/" ++ file_id

/-- Modelled from the spec (§4.3): "the reference normalized to begin with a
single leading slash" — exactly one leading slash, however many it had. -/
def specNormalizeLocalUrl (r : String) : String :=
  "/" ++ String.mk (r.data.dropWhile (fun c => c = '/'))

/-! ## Poster Reader -/

/-- A row of the `posters` table as the three poster endpoints select it. -/
structure PosterRow where
  id : Int
  file_id : String
  caption : Option String
  ticket_url : Option String
  venue_map_file_id : Option String
  created_at : Nat
  is_active : Bool
deriving DecidableEq

/-- `api.py` lines 181-183 / 235-237: `title` derived from `caption`. -/
def posterTitle (caption : Option String) : String :=
  let c := pyOrDefault caption ""
  match pySplit1 '\n' c with
  | [] => "Мероприятие"
  | t :: _ => t

/-- `api.py` lines 182-184 / 236-238: `subtitle` derived from `caption`. -/
def posterSubtitle (caption : Option String) : String :=
  let c := pyOrDefault caption ""
  match pySplit1 '\n' c with
  | _ :: s :: _ => s
  | _ => ""

/-- The JSON object `get_posters` / `get_latest_poster` returns per row. -/
structure PosterWebView where
  id : Int
  file_id : String
  photo_url : String
  caption : String
  title : String
  subtitle : String
  ticket_url : Option String
  venue_map_file_id : Option String
  created_at : Nat
  is_active : Bool
deriving DecidableEq

/-- `api.py` lines 194-205: projection of one poster row to the web view. -/
def posterWebView (r : PosterRow) : PosterWebView where
  id := r.id
  file_id := r.file_id
  photo_url := posterPhotoUrl r.file_id
  caption := pyOrDefault r.caption ""
  title := posterTitle r.caption
  subtitle := posterSubtitle r.caption
  ticket_url := r.ticket_url
  venue_map_file_id := r.venue_map_file_id
  created_at := r.created_at
  is_active := r.is_active

/-- Insertion step of the insertion sort standing in for SQL `ORDER BY`. -/
def insertLe {α : Type} (le : α → α → Bool) (r : α) : List α → List α
  | [] => [r]
  | x :: xs => if le r x then r :: x :: xs else x :: insertLe le r xs

/-- Insertion sort standing in for SQL `ORDER BY` (any stable order refines
the query's unspecified tie order). -/
def sortLe {α : Type} (le : α → α → Bool) : List α → List α
  | [] => []
  | x :: xs => insertLe le x (sortLe le xs)

/-- `ORDER BY created_at DESC` over poster rows. -/
def sortByCreatedDesc (l : List PosterRow) : List PosterRow :=
  sortLe (fun a b => b.created_at ≤ a.created_at) l

/-- `GET /posters` (`api.py` lines 158-210): active posters, newest first.
`db` models whether the connection pool is available. -/
def get_posters (db : Bool) (table : List PosterRow) :
    Except HTTPError (List PosterWebView) :=
  if !db then .error ⟨503, "Database not available"⟩
  else .ok ((sortByCreatedDesc (table.filter (fun r => r.is_active))).map posterWebView)

/-- `GET /posters/latest` (`api.py` lines 213-266): most recent active poster. -/
def get_latest_poster (db : Bool) (table : List PosterRow) :
    Except HTTPError PosterWebView :=
  if !db then .error ⟨503, "Database not available"⟩
  else
    match sortByCreatedDesc (table.filter (fun r => r.is_active)) with
    | [] => .error ⟨404, "No active posters found"⟩
    | r :: _ => .ok (posterWebView r)

/-- The JSON object `GET /posters/{id}` returns (no title/photo derivation). -/
structure PosterByIdView where
  id : Int
  file_id : String
  caption : Option String
  ticket_url : Option String
  venue_map_file_id : Option String
  created_at : Nat
  is_active : Bool
deriving DecidableEq

/-- `GET /posters/{poster_id}` (`api.py` lines 269-302): lookup by id with
no `is_active` filter. -/
def get_poster (db : Bool) (table : List PosterRow) (poster_id : Int) :
    Except HTTPError PosterByIdView :=
  if !db then .error ⟨503, "Database not available"⟩
  else
    match table.find? (fun r => r.id == poster_id) with
    | none => .error ⟨404, "Poster not found"⟩
    | some r => .ok ⟨r.id, r.file_id, r.caption, r.ticket_url, r.venue_map_file_id,
        r.created_at, r.is_active⟩

/-! ## Photo proxy (`GET /photo/{file_id}`) -/

/-- A call issued to the Telegram Bot API by the photo proxy. -/
inductive TgCall where
  | getFile (file_id : String)
  | download (file_path : String)
deriving DecidableEq

/-- The foreign platform as an oracle: `getFilePath` models the `getFile`
endpoint (`none` when the response is not `ok`), `downloadStatus` and
`downloadContent` model the file download. -/
structure TgApi where
  getFilePath : String → Option String
  downloadStatus : String → Nat
  downloadContent : String → String

/-- The streamed response of `api.py` lines 374-378. -/
structure StreamedPhoto where
  content : String
  media_type : String
  cache_control : String
deriving DecidableEq

/-- `GET /photo/{file_id}` (`api.py` lines 348-383).  The second component
is the trace of foreign-platform calls the handler issued. -/
def get_photo (BOT_TOKEN : String) (tg : TgApi) (file_id : String) :
    Except HTTPError StreamedPhoto × List TgCall :=
  if BOT_TOKEN = "" then (.error ⟨503, "Bot token not configured"⟩, [])
  else
    match tg.getFilePath file_id with
    | none => (.error ⟨404, "File not found"⟩, [.getFile file_id])
    | some file_path =>
      if tg.downloadStatus file_path ≠ 200 then
        (.error ⟨404, "Failed to download photo"⟩,
          [.getFile file_id, .download file_path])
      else
        (.ok ⟨tg.downloadContent file_path, "image/jpeg", "public, max-age=86400"⟩,
          [.getFile file_id, .download file_path])

/-- Whether a trace element is a `getFile` (resolve) call. -/
def TgCall.isGetFile : TgCall → Bool
  | .getFile _ => true
  | .download _ => false

/-- Whether a trace element is a file-download call. -/
def TgCall.isDownload : TgCall → Bool
  | .getFile _ => false
  | .download _ => true

/-! ## Story Slot Manager -/

/-- A row of the `stories` table.  `slot_number` is `none` for rows inserted
by `create_story`, which omits the column (the store default is NULL). -/
structure StoryRow where
  id : Int
  file_id : String
  caption : Option String
  slot_number : Option Int
  order_num : Int
  created_at : Nat
  is_active : Bool
deriving DecidableEq

/-- The stories table plus the store-assigned id sequence and clock. -/
structure StoriesState where
  rows : List StoryRow
  nextId : Int
  now : Nat
deriving DecidableEq

/-- The empty stories table. -/
def initialStories : StoriesState := ⟨[], 1, 0⟩

/-- The JSON object `GET /stories` returns per row (`api.py` lines 414-422). -/
structure StoryView where
  id : Int
  file_id : String
  photo_url : String
  caption : Option String
  slot_number : Option Int
  created_at : Nat
  is_active : Bool
deriving DecidableEq

/-- Projection of one story row to the listing view. -/
def storyView (r : StoryRow) : StoryView :=
  ⟨r.id, r.file_id, storyPhotoUrl r.file_id, r.caption, r.slot_number,
    r.created_at, r.is_active⟩

/-- `ORDER BY slot_number ASC` with SQL's default NULLS LAST. -/
def slotLe : Option Int → Option Int → Bool
  | some a, some b => a ≤ b
  | some _, none => true
  | none, some _ => false
  | none, none => true

/-- `ORDER BY slot_number ASC` over story rows. -/
def sortBySlot (l : List StoryRow) : List StoryRow :=
  sortLe (fun a b => slotLe a.slot_number b.slot_number) l

/-- `GET /stories` (`api.py` lines 386-427): active stories ordered by slot. -/
def get_stories (db : Bool) (st : StoriesState) :
    Except HTTPError (List StoryView) :=
  if !db then .error ⟨503, "Database not available"⟩
  else .ok ((sortBySlot (st.rows.filter (fun r => r.is_active))).map storyView)

/-- The JSON object the story CRUD endpoints return (`RETURNING id, file_id,
caption, order_num, created_at, is_active`). -/
structure StoryCrudView where
  id : Int
  file_id : String
  caption : Option String
  order_num : Int
  created_at : Nat
  is_active : Bool
deriving DecidableEq

/-- `POST /stories` (`api.py` lines 430-460): unconditional insert of a new
active story; the INSERT omits `slot_number`, so the row gets NULL. -/
def create_story (ADMIN_IDS : List Int) (user_id : Int) (db : Bool)
    (file_id : String) (caption : Option String) (order_num : Int)
    (st : StoriesState) : Except HTTPError StoryCrudView × StoriesState :=
  if !(is_admin ADMIN_IDS user_id) then
    (.error ⟨403, "Access denied. Admins only."⟩, st)
  else if !db then (.error ⟨503, "Database not available"⟩, st)
  else
    let newRow : StoryRow := ⟨st.nextId, file_id, caption, none, order_num, st.now, true⟩
    (.ok ⟨newRow.id, newRow.file_id, newRow.caption, newRow.order_num,
        newRow.created_at, newRow.is_active⟩,
      ⟨st.rows ++ [newRow], st.nextId + 1, st.now + 1⟩)

/-- The `StoryUpdate` request model (`api.py` lines 74-78): a partial patch. -/
structure StoryUpdate where
  caption : Option String
  order_num : Option Int
  is_active : Option Bool
deriving DecidableEq

/-- One `SET` assignment of the dynamically assembled UPDATE statement. -/
inductive Assignment where
  | setCaption (v : String)
  | setOrderNum (v : Int)
  | setIsActive (v : Bool)
deriving DecidableEq

/-- `api.py` lines 475-492: the assignment list built from the fields
present in the patch, in source order. -/
def buildUpdates (story : StoryUpdate) : List Assignment :=
  (match story.caption with | some v => [.setCaption v] | none => []) ++
  (match story.order_num with | some v => [.setOrderNum v] | none => []) ++
  (match story.is_active with | some v => [.setIsActive v] | none => [])

/-- Effect of one `SET` assignment on a row. -/
def applyAssignment (r : StoryRow) : Assignment → StoryRow
  | .setCaption v => { r with caption := some v }
  | .setOrderNum v => { r with order_num := v }
  | .setIsActive v => { r with is_active := v }

/-- `PUT /stories/{story_id}` (`api.py` lines 463-522): dynamic partial
update; 400 on an empty patch, 404 when no row has the id. -/
def update_story (ADMIN_IDS : List Int) (user_id : Int) (db : Bool)
    (story_id : Int) (story : StoryUpdate) (st : StoriesState) :
    Except HTTPError StoryCrudView × StoriesState :=
  if !(is_admin ADMIN_IDS user_id) then
    (.error ⟨403, "Access denied. Admins only."⟩, st)
  else if !db then (.error ⟨503, "Database not available"⟩, st)
  else
    let updates := buildUpdates story
    if updates = [] then (.error ⟨400, "No fields to update"⟩, st)
    else
      match st.rows.find? (fun r => r.id == story_id) with
      | none => (.error ⟨404, "Story not found"⟩, st)
      | some r =>
        let u := updates.foldl applyAssignment r
        (.ok ⟨u.id, u.file_id, u.caption, u.order_num, u.created_at, u.is_active⟩,
          { st with rows := st.rows.map (fun x =>
              if x.id == story_id then updates.foldl applyAssignment x else x) })

/-- `DELETE /stories/{story_id}` (`api.py` lines 525-549): 404 when the
DELETE touched no row (`result == "DELETE 0"`). -/
def delete_story (ADMIN_IDS : List Int) (user_id : Int) (db : Bool)
    (story_id : Int) (st : StoriesState) :
    Except HTTPError String × StoriesState :=
  if !(is_admin ADMIN_IDS user_id) then
    (.error ⟨403, "Access denied. Admins only."⟩, st)
  else if !db then (.error ⟨503, "Database not available"⟩, st)
  else
    let remaining := st.rows.filter (fun r => !(r.id == story_id))
    if remaining.length = st.rows.length then (.error ⟨404, "Story not found"⟩, st)
    else (.ok "Story deleted successfully", { st with rows := remaining })

/-- The JSON object `POST /stories/create-in-slot` returns. -/
structure SlotStoryView where
  id : Int
  file_id : String
  caption : Option String
  slot_number : Option Int
  created_at : Nat
  is_active : Bool
deriving DecidableEq

/-- `POST /stories/create-in-slot` (`api.py` lines 612-659), the spec's
`replace_slot`: deactivate every active story in the slot, then insert a
new active story there.  The INSERT omits `order_num`, so the new row gets
the store default (0 per spec §3; the table schema is outside `api.py`). -/
def create_story_in_slot (ADMIN_IDS : List Int) (user_id : Int) (db : Bool)
    (slot_number : Int) (file_id : String) (caption : Option String)
    (st : StoriesState) : Except HTTPError SlotStoryView × StoriesState :=
  if !(is_admin ADMIN_IDS user_id) then (.error ⟨403, "Access denied"⟩, st)
  else if !(slot_number == 1 || slot_number == 2 || slot_number == 3) then
    (.error ⟨400, "Slot number must be 1, 2, or 3"⟩, st)
  else if !db then (.error ⟨503, "Database not available"⟩, st)
  else
    let deactivated := st.rows.map (fun r =>
      if r.slot_number == some slot_number && r.is_active then
        { r with is_active := false }
      else r)
    let newRow : StoryRow := ⟨st.nextId, file_id, caption, some slot_number, 0, st.now, true⟩
    (.ok ⟨newRow.id, newRow.file_id, newRow.caption, newRow.slot_number,
        newRow.created_at, newRow.is_active⟩,
      ⟨deactivated ++ [newRow], st.nextId + 1, st.now + 1⟩)

/-- Number of active stories in slot `s`. -/
def countActiveInSlot (rows : List StoryRow) (s : Int) : Nat :=
  rows.countP (fun r => r.is_active && r.slot_number == some s)

/-- The spec §3 invariant: at most one active story per slot in {1,2,3}. -/
def slotInv (rows : List StoryRow) : Bool :=
  ([1, 2, 3] : List Int).all (fun s => decide (countActiveInSlot rows s ≤ 1))

/-! ## Upload intake (`POST /upload-story-photo`) -/

/-- The final path component (Python `pathlib.PurePath.name`). -/
def lastComponent (cs : List Char) : List Char :=
  (cs.reverse.takeWhile (fun c => !(c = '/'))).reverse

/-- Index of the last occurrence of `c`, if any (Python `str.rfind`). -/
def lastIdxOf (cs : List Char) (c : Char) : Option Nat :=
  match cs.reverse.findIdx? (fun x => x = c) with
  | none => none
  | some j => some (cs.length - 1 - j)

/-- Python `pathlib.PurePath.suffix`: the extension from the last dot of the
final component, empty when that dot is leading, trailing or absent. -/
def pySuffix (name : String) : String :=
  let nm := lastComponent name.data
  match lastIdxOf nm '.' with
  | none => ""
  | some i => if 0 < i && i + 1 < nm.length then String.mk (nm.drop i) else ""

/-- `api.py` line 569: accept only a declared content type that is truthy
and starts with `image/`. -/
def contentTypeAccepted (content_type : Option String) : Bool :=
  match content_type with
  | none => false
  | some ct => !(ct = "") && pyStartswith ct "image/"

/-- The JSON object `POST /upload-story-photo` returns. -/
structure UploadResult where
  success : Bool
  photo_url : String
  filename : String
deriving DecidableEq

/-- `POST /upload-story-photo` (`api.py` lines 558-598).  `uuid4` stands for
the generated collision-resistant stem, `contents` for the payload bytes;
the second component is the upload directory as a path-to-bytes list. -/
def upload_story_photo (ADMIN_IDS : List Int) (user_id : Int)
    (content_type : Option String) (filename : Option String)
    (uuid4 : String) (contents : String) (fs : List (String × String)) :
    Except HTTPError UploadResult × List (String × String) :=
  if !(is_admin ADMIN_IDS user_id) then (.error ⟨403, "Access denied"⟩, fs)
  else if !(contentTypeAccepted content_type) then
    (.error ⟨400, "File must be an image"⟩, fs)
  else
    let file_extension := pySuffix (pyOrDefault filename "image.jpg")
    let unique_filename := uuid4 ++ file_extension
    let file_path := "uploads/stories/" ++ unique_filename
    let relative_path := "/uploads/stories/" ++ unique_filename
    (.ok ⟨true, relative_path, unique_filename⟩, fs ++ [(file_path, contents)])

/-- Modelled from the spec (§4.2): the patch "applies only the fields present
in the partial", leaving every omitted field at its prior value. -/
def patchSpec (r : StoryRow) (p : StoryUpdate) : StoryRow :=
  { r with
    caption := match p.caption with | some v => some v | none => r.caption
    order_num := match p.order_num with | some v => v | none => r.order_num
    is_active := match p.is_active with | some v => v | none => r.is_active }

/-! ## Helper lemmas -/

theorem pyStartswith_iff {s p : String} : pyStartswith s p = true ↔ ∃ t, s = p ++ t := by
  unfold pyStartswith
  rw [List.isPrefixOf_iff_prefix]
  constructor
  · rintro ⟨t, ht⟩
    refine ⟨String.mk t, String.ext ?_⟩
    rw [String.data_append]
    exact ht.symm
  · rintro ⟨t, rfl⟩
    exact ⟨t.data, (String.data_append p t).symm⟩

theorem pyStartswith_slash {r : String} {cs : List Char} (h : r.data = '/' :: cs) :
    pyStartswith r "/" = true := by
  have hd : ("/" : String).data = ['/'] := rfl
  simp [pyStartswith, h, hd, List.isPrefixOf]

theorem pyStartswith_slash_false {r : String} {c : Char} {cs : List Char}
    (h : r.data = c :: cs) (hc : ¬(c = '/')) : pyStartswith r "/" = false := by
  have hd : ("/" : String).data = ['/'] := rfl
  simp [pyStartswith, h, hd, List.isPrefixOf]
  exact fun heq => absurd heq.symm hc

theorem specNormalize_eq_self {r : String} {c : Char} {cs : List Char}
    (h : r.data = '/' :: c :: cs) (hc : ¬(c = '/')) :
    specNormalizeLocalUrl r = r := by
  apply String.ext
  rw [specNormalizeLocalUrl, String.data_append, h]
  simp [List.dropWhile_cons, hc]

theorem specNormalize_eq_slash_append {r : String} {c : Char} {cs : List Char}
    (h : r.data = c :: cs) (hc : ¬(c = '/')) :
    specNormalizeLocalUrl r = "/" ++ r := by
  apply String.ext
  rw [specNormalizeLocalUrl, String.data_append, String.data_append, h]
  simp [List.dropWhile_cons, hc]

theorem insertLe_perm {α : Type} (le : α → α → Bool) (r : α) (l : List α) :
    insertLe le r l ~ r :: l := by
  induction l with
  | nil => simp [insertLe]
  | cons x xs ih =>
    rw [insertLe]
    split
    · exact .refl _
    · exact (ih.cons x).trans (.swap r x xs)

theorem sortLe_perm {α : Type} (le : α → α → Bool) (l : List α) : sortLe le l ~ l := by
  induction l with
  | nil => simp [sortLe]
  | cons x xs ih => exact (insertLe_perm le x (sortLe le xs)).trans (ih.cons x)

theorem foldl_buildUpdates_eq_patchSpec (p : StoryUpdate) (r : StoryRow) :
    (buildUpdates p).foldl applyAssignment r = patchSpec r p := by
  rcases p with ⟨c, o, a⟩
  cases c <;> cases o <;> cases a <;> rfl

theorem buildUpdates_eq_nil_iff (p : StoryUpdate) :
    buildUpdates p = [] ↔ p = ⟨none, none, none⟩ := by
  rcases p with ⟨c, o, a⟩
  cases c <;> cases o <;> cases a <;> simp [buildUpdates]

theorem slotInv_of_le {rows rows' : List StoryRow}
    (h : ∀ s : Int, countActiveInSlot rows' s ≤ countActiveInSlot rows s)
    (hinv : slotInv rows = true) : slotInv rows' = true := by
  simp only [slotInv, List.all_eq_true, decide_eq_true_eq] at hinv ⊢
  intro s hs
  exact le_trans (h s) (hinv s hs)

theorem ite_slash_normalize_slash {r t pre : String} {c : Char} {cs : List Char}
    (hr : r = pre ++ t) (hpre : pre.data = '/' :: c :: cs) (hc : ¬(c = '/')) :
    (if pyStartswith r "/" then r else "/" ++ r) = specNormalizeLocalUrl r := by
  subst hr
  have hd : (pre ++ t).data = '/' :: c :: (cs ++ t.data) := by
    rw [String.data_append, hpre]
    rfl
  rw [if_pos (pyStartswith_slash hd)]
  exact (specNormalize_eq_self hd hc).symm

theorem ite_slash_normalize_bare {r t pre : String} {c : Char} {cs : List Char}
    (hr : r = pre ++ t) (hpre : pre.data = c :: cs) (hc : ¬(c = '/')) :
    (if pyStartswith r "/" then r else "/" ++ r) = specNormalizeLocalUrl r := by
  subst hr
  have hd : (pre ++ t).data = c :: (cs ++ t.data) := by
    rw [String.data_append, hpre]
    rfl
  rw [if_neg (by simp [pyStartswith_slash_false hd hc])]
  exact (specNormalize_eq_slash_append hd hc).symm

theorem none_beq_some (s : Int) : ((none : Option Int) == some s) = false := rfl

/-! ## Claim theorems -/

/-- C3 (evaluation at the failing input): the poster title/subtitle
derivation splits on the first newline correctly, but an empty or absent
caption yields the empty title, not the localized fallback default: the
`if lines else` fallback at `api.py` 183/237 is dead code because Python's
`split` never returns an empty list. -/
theorem poster_title_empty_caption_eval :
    posterTitle (some "A\nB\nC") = "A" ∧ posterSubtitle (some "A\nB\nC") = "B\nC" ∧
    posterSubtitle (some "AB") = "" ∧
    posterTitle none = "" ∧ posterTitle (some "") = "" ∧
    pySplit1 '\n' "" = [""] ∧
    ("" : String) ≠ "Мероприятие" := by
  decide

/-- C4: every mutating operation (`create_story`, `update_story`,
`delete_story`, `create_story_in_slot`, `upload_story_photo`) rejects a
caller outside the admin set with 403 before touching the store or the
filesystem: the state comes back unchanged whatever the store availability,
and in particular a non-admin `create_story` inserts no row. -/
theorem admin_gate_blocks_mutations (AD : List Int) (uid : Int) (h : uid ∉ AD) :
    (∀ db fid cap onum st, create_story AD uid db fid cap onum st =
      (.error ⟨403, "Access denied. Admins only."⟩, st)) ∧
    (∀ db sid p st, update_story AD uid db sid p st =
      (.error ⟨403, "Access denied. Admins only."⟩, st)) ∧
    (∀ db sid st, delete_story AD uid db sid st =
      (.error ⟨403, "Access denied. Admins only."⟩, st)) ∧
    (∀ db slot fid cap st, create_story_in_slot AD uid db slot fid cap st =
      (.error ⟨403, "Access denied"⟩, st)) ∧
    (∀ ct fn u bytes fs, upload_story_photo AD uid ct fn u bytes fs =
      (.error ⟨403, "Access denied"⟩, fs)) := by
  have ha : is_admin AD uid = false := by simpa [is_admin] using h
  refine ⟨?_, ?_, ?_, ?_, ?_⟩
  · intro db fid cap onum st
    simp [create_story, ha]
  · intro db sid p st
    simp [update_story, ha]
  · intro db sid st
    simp [delete_story, ha]
  · intro db slot fid cap st
    simp [create_story_in_slot, ha]
  · intro ct fn u bytes fs
    simp [upload_story_photo, ha]

theorem admin_gate_blocks_mutations_witness :
    create_story DEFAULT_ADMIN_IDS 5 true "f" none 0 initialStories =
      (.error ⟨403, "Access denied. Admins only."⟩, initialStories) :=
  (admin_gate_blocks_mutations DEFAULT_ADMIN_IDS 5 (by decide)).1 true "f" none 0
    initialStories

/-- C6 counterexample: `"/posters/a.jpg"` starts with a configured local
prefix of the spec's example set, yet the story listing's resolver
classifies it foreign and resolves it to the proxy path instead of the
slash-normalized local URL — the prefix set is not shared across
endpoints. -/
theorem shared_prefix_classification_cex :
    pyStartswith "/posters/a.jpg" "/posters/" = true ∧
    storyIsLocal "/posters/a.jpg" = false ∧
    storyPhotoUrl "/posters/a.jpg" = "/photo//posters/a.jpg" ∧
    storyPhotoUrl "/posters/a.jpg" ≠ specNormalizeLocalUrl "/posters/a.jpg" := by
  decide

/-- C6 (amended): each endpoint has its own local-prefix set — the poster
readers use {"/posters/", "posters/"}, the story listing uses
{"/uploads/", "uploads/"}.  Within each endpoint, a reference matching one
of its prefixes resolves to the reference normalized to exactly one leading
slash, and any other reference resolves to the proxy path `/photo/{ref}`. -/
theorem photo_resolver_local_urls (r : String) :
    ((pyStartswith r "/posters/" = true ∨ pyStartswith r "posters/" = true) →
      posterIsLocal r = true ∧ posterPhotoUrl r = specNormalizeLocalUrl r) ∧
    (pyStartswith r "/posters/" = false → pyStartswith r "posters/" = false →
      posterIsLocal r = false ∧ posterPhotoUrl r = "/photo/" ++ r) ∧
    ((pyStartswith r "/uploads/" = true ∨ pyStartswith r "uploads/" = true) →
      storyIsLocal r = true ∧ storyPhotoUrl r = specNormalizeLocalUrl r) ∧
    (pyStartswith r "/uploads/" = false → pyStartswith r "uploads/" = false →
      storyIsLocal r = false ∧ storyPhotoUrl r = "/photo/" ++ r) := by
  refine ⟨?_, ?_, ?_, ?_⟩
  · intro h
    have hloc : posterIsLocal r = true := by
      rcases h with h | h <;> simp [posterIsLocal, h]
    refine ⟨hloc, ?_⟩
    rw [posterPhotoUrl, if_pos hloc]
    rcases h with h | h
    · obtain ⟨t, ht⟩ := pyStartswith_iff.mp h
      exact ite_slash_normalize_slash ht rfl (by decide)
    · obtain ⟨t, ht⟩ := pyStartswith_iff.mp h
      exact ite_slash_normalize_bare ht rfl (by decide)
  · intro h1 h2
    have hloc : posterIsLocal r = false := by simp [posterIsLocal, h1, h2]
    exact ⟨hloc, by rw [posterPhotoUrl, if_neg (by simp [hloc])]⟩
  · intro h
    have hloc : storyIsLocal r = true := by
      rcases h with h | h <;> simp [storyIsLocal, h]
    refine ⟨hloc, ?_⟩
    rw [storyPhotoUrl, if_pos hloc]
    rcases h with h | h
    · obtain ⟨t, ht⟩ := pyStartswith_iff.mp h
      exact ite_slash_normalize_slash ht rfl (by decide)
    · obtain ⟨t, ht⟩ := pyStartswith_iff.mp h
      exact ite_slash_normalize_bare ht rfl (by decide)
  · intro h1 h2
    have hloc : storyIsLocal r = false := by simp [storyIsLocal, h1, h2]
    exact ⟨hloc, by rw [storyPhotoUrl, if_neg (by simp [hloc])]⟩

/-- C10: local-reference classification is endpoint-specific — the poster
readers treat exactly the references starting with "/posters/" or
"posters/" as local, the story listing exactly those starting with
"/uploads/" or "uploads/", so the same reference can classify differently:
a story whose `image_ref` starts with "/posters/" resolves to the foreign
proxy path. -/
theorem endpoint_specific_classification :
    (∀ r : String, posterIsLocal r = true ↔
      (∃ t, r = "/posters/" ++ t) ∨ ∃ t, r = "posters/" ++ t) ∧
    (∀ r : String, storyIsLocal r = true ↔
      (∃ t, r = "/uploads/" ++ t) ∨ ∃ t, r = "uploads/" ++ t) ∧
    posterIsLocal "/posters/a.jpg" = true ∧
    storyIsLocal "/posters/a.jpg" = false ∧
    storyPhotoUrl "/posters/a.jpg" = "/photo/" ++ "/posters/a.jpg" ∧
    storyIsLocal "/uploads/a.jpg" = true ∧
    posterIsLocal "/uploads/a.jpg" = false ∧
    posterPhotoUrl "/uploads/a.jpg" = "/photo/" ++ "/uploads/a.jpg" := by
  refine ⟨?_, ?_, by decide, by decide, by decide, by decide, by decide, by decide⟩
  · intro r
    simp [posterIsLocal, Bool.or_eq_true, pyStartswith_iff]
  · intro r
    simp [storyIsLocal, Bool.or_eq_true, pyStartswith_iff]

/-- C7: the photo proxy requires the configured credential — without it the
handler signals 503 and issues no foreign call; with it, it issues exactly
one resolve (`getFile`) call, signals 404 when that call denies (with no
download issued), and on success issues exactly one download call and
streams the bytes back with an image content type and a 24-hour cacheable
response. -/
theorem get_photo_proxy (BOT_TOKEN : String) (tg : TgApi) (fid : String) :
    (BOT_TOKEN = "" →
      get_photo BOT_TOKEN tg fid = (.error ⟨503, "Bot token not configured"⟩, [])) ∧
    (BOT_TOKEN ≠ "" →
      (get_photo BOT_TOKEN tg fid).2.countP TgCall.isGetFile = 1 ∧
      (tg.getFilePath fid = none →
        get_photo BOT_TOKEN tg fid = (.error ⟨404, "File not found"⟩, [.getFile fid])) ∧
      (∀ path, tg.getFilePath fid = some path → tg.downloadStatus path = 200 →
        get_photo BOT_TOKEN tg fid =
          (.ok ⟨tg.downloadContent path, "image/jpeg", "public, max-age=86400"⟩,
            [.getFile fid, .download path]) ∧
        (get_photo BOT_TOKEN tg fid).2.countP TgCall.isDownload = 1 ∧
        pyStartswith "image/jpeg" "image/" = true)) := by
  constructor
  · intro h
    simp [get_photo, h]
  · intro h
    refine ⟨?_, ?_, ?_⟩
    · rw [get_photo, if_neg h]
      cases hf : tg.getFilePath fid with
      | none => simp [TgCall.isGetFile]
      | some path =>
        by_cases hs : tg.downloadStatus path ≠ 200 <;>
          simp [hs, TgCall.isGetFile, TgCall.isDownload]
    · intro hf
      simp [get_photo, h, hf]
    · intro path hf hs
      have hmain : get_photo BOT_TOKEN tg fid =
          (.ok ⟨tg.downloadContent path, "image/jpeg", "public, max-age=86400"⟩,
            [.getFile fid, .download path]) := by
        rw [get_photo, if_neg h, hf]
        simp [hs]
      refine ⟨hmain, ?_, by decide⟩
      rw [hmain]
      simp [TgCall.isGetFile, TgCall.isDownload]

theorem get_photo_proxy_witness :
    get_photo "t" ⟨fun _ => some "p", fun _ => 200, fun _ => "B"⟩ "f" =
      (.ok ⟨"B", "image/jpeg", "public, max-age=86400"⟩,
        [.getFile "f", .download "p"]) :=
  (((get_photo_proxy "t" ⟨fun _ => some "p", fun _ => 200, fun _ => "B"⟩ "f").2
    (by decide)).2.2 "p" rfl rfl).1

/-- C8: an admin upload whose declared content type is not in the image
family is rejected with 400 and writes nothing; an accepted upload persists
the bytes under the generated name inside the fixed `uploads/stories`
directory, and the returned relative path classifies as a local reference
in the story listing's Photo Resolver (round-trip). -/
theorem upload_intake_roundtrip (AD : List Int) (uid : Int)
    (ct : Option String) (fn : Option String) (u bytes : String)
    (fs : List (String × String)) (hadm : uid ∈ AD) :
    ((∀ s, ct = some s → pyStartswith s "image/" = false) →
      upload_story_photo AD uid ct fn u bytes fs =
        (.error ⟨400, "File must be an image"⟩, fs)) ∧
    (∀ s, ct = some s → pyStartswith s "image/" = true →
      upload_story_photo AD uid ct fn u bytes fs =
        (.ok ⟨true, "/uploads/stories/" ++ (u ++ pySuffix (pyOrDefault fn "image.jpg")),
            u ++ pySuffix (pyOrDefault fn "image.jpg")⟩,
          fs ++ [("uploads/stories/" ++ (u ++ pySuffix (pyOrDefault fn "image.jpg")),
            bytes)]) ∧
      storyIsLocal
        ("/uploads/stories/" ++ (u ++ pySuffix (pyOrDefault fn "image.jpg"))) = true ∧
      storyPhotoUrl
          ("/uploads/stories/" ++ (u ++ pySuffix (pyOrDefault fn "image.jpg"))) =
        "/uploads/stories/" ++ (u ++ pySuffix (pyOrDefault fn "image.jpg"))) := by
  have ha : is_admin AD uid = true := by simpa [is_admin] using hadm
  constructor
  · intro h
    have hacc : contentTypeAccepted ct = false := by
      cases ct with
      | none => rfl
      | some s => simp [contentTypeAccepted, h s rfl]
    simp [upload_story_photo, ha, hacc]
  · intro s hct hsw
    subst hct
    have hne : ¬(s = "") := by
      rintro rfl
      exact absurd hsw (by decide)
    have hacc : contentTypeAccepted (some s) = true := by
      simp [contentTypeAccepted, hne, hsw]
    have happ : "/uploads/stories/" ++ (u ++ pySuffix (pyOrDefault fn "image.jpg")) =
        "/uploads/" ++ ("stories/" ++ (u ++ pySuffix (pyOrDefault fn "image.jpg"))) := rfl
    have hsw2 : pyStartswith
        ("/uploads/stories/" ++ (u ++ pySuffix (pyOrDefault fn "image.jpg")))
        "/uploads/" = true :=
      pyStartswith_iff.mpr ⟨_, happ⟩
    have hloc : storyIsLocal
        ("/uploads/stories/" ++ (u ++ pySuffix (pyOrDefault fn "image.jpg"))) = true := by
      simp [storyIsLocal, hsw2]
    have hd : ("/uploads/stories/" ++ (u ++ pySuffix (pyOrDefault fn "image.jpg"))).data =
        '/' :: ("uploads/stories/".data ++
          (u ++ pySuffix (pyOrDefault fn "image.jpg")).data) := by
      rw [String.data_append]
      rfl
    refine ⟨by simp [upload_story_photo, ha, hacc], hloc, ?_⟩
    rw [storyPhotoUrl, if_pos hloc, if_pos (pyStartswith_slash hd)]

theorem upload_intake_roundtrip_witness :
    upload_story_photo DEFAULT_ADMIN_IDS 825042510 (some "image/png") (some "x.png")
        "u1" "B" [] =
      (.ok ⟨true, "/uploads/stories/u1.png", "u1.png"⟩,
        [("uploads/stories/u1.png", "B")]) ∧
    storyIsLocal "/uploads/stories/u1.png" = true :=
  have h := (upload_intake_roundtrip DEFAULT_ADMIN_IDS 825042510 (some "image/png")
    (some "x.png") "u1" "B" [] (by decide)).2 "image/png" rfl (by decide)
  ⟨h.1, h.2.1⟩

/-- C9: `get_poster` looks a poster up by id with no `is_active` filter:
an inactive poster absent from the active listing and from the latest
endpoint is still returned by id, and 404 is signaled exactly when no row
with that id exists. -/
theorem get_poster_ignores_is_active (table : List PosterRow) (pid : Int)
    (hnodup : (table.map (fun r => r.id)).Nodup) :
    (∀ r, table.find? (fun x => x.id == pid) = some r →
      get_poster true table pid = .ok ⟨r.id, r.file_id, r.caption, r.ticket_url,
        r.venue_map_file_id, r.created_at, r.is_active⟩) ∧
    (get_poster true table pid = .error ⟨404, "Poster not found"⟩ ↔
      ∀ r ∈ table, r.id ≠ pid) ∧
    (∀ r ∈ table, r.id = pid → r.is_active = false →
      (∀ vs, get_posters true table = .ok vs → ∀ v ∈ vs, v.id ≠ pid) ∧
      (∀ v, get_latest_poster true table = .ok v → v.id ≠ pid) ∧
      ∃ w, get_poster true table pid = .ok w ∧ w.id = pid ∧ w.is_active = false) := by
  have hinj := List.inj_on_of_nodup_map hnodup
  have hview : ∀ y ∈ sortByCreatedDesc (table.filter (fun r => r.is_active)),
      y ∈ table ∧ y.is_active = true := by
    intro y hy
    have : y ∈ table.filter (fun r => r.is_active) :=
      (sortLe_perm _ _).mem_iff.mp hy
    have h2 := List.mem_filter.mp this
    exact ⟨h2.1, h2.2⟩
  refine ⟨?_, ?_, ?_⟩
  · intro r hr
    simp [get_poster, hr]
  · rw [get_poster]
    simp only [Bool.not_true, if_false, ite_false]
    cases hf : table.find? (fun x => x.id == pid) with
    | none =>
      simp only [List.find?_eq_none, beq_iff_eq] at hf
      simpa using hf
    | some r =>
      have hmem := List.mem_of_find?_eq_some hf
      have hpr : r.id = pid := by simpa using List.find?_some hf
      constructor
      · intro he
        exact absurd he (by simp)
      · intro hall
        exact absurd hpr (hall r hmem)
  · intro r hrmem hrid hract
    refine ⟨?_, ?_, ?_⟩
    · intro vs hvs v hv
      have hvs' : vs = (sortByCreatedDesc (table.filter (fun x => x.is_active))).map
          posterWebView := by
        have := hvs
        rw [get_posters] at this
        simpa using this.symm
      subst hvs'
      obtain ⟨y, hy, rfl⟩ := List.mem_map.mp hv
      obtain ⟨hyt, hya⟩ := hview y hy
      intro hid
      have hyr : y = r := hinj hyt hrmem (by simpa [posterWebView] using hid.trans hrid.symm)
      rw [hyr] at hya
      exact absurd hya (by simp [hract])
    · intro v hv
      rw [get_latest_poster] at hv
      simp only [Bool.not_true, ite_false] at hv
      cases hsort : sortByCreatedDesc (table.filter (fun x => x.is_active)) with
      | nil => rw [hsort] at hv; exact absurd hv (by simp)
      | cons y ys =>
        rw [hsort] at hv
        have hv' : v = posterWebView y := by simpa using hv.symm
        subst hv'
        have hy : y ∈ sortByCreatedDesc (table.filter (fun x => x.is_active)) := by
          rw [hsort]; exact List.mem_cons_self y ys
        obtain ⟨hyt, hya⟩ := hview y hy
        intro hid
        have hyr : y = r := hinj hyt hrmem (by simpa [posterWebView] using hid.trans hrid.symm)
        rw [hyr] at hya
        exact absurd hya (by simp [hract])
    · have hsome : (table.find? (fun x => x.id == pid)).isSome := by
        rw [List.find?_isSome]
        exact ⟨r, hrmem, by simp [hrid]⟩
      obtain ⟨w, hw⟩ := Option.isSome_iff_exists.mp hsome
      have hwid : w.id = pid := by simpa using List.find?_some hw
      have hwmem := List.mem_of_find?_eq_some hw
      have hwr : w = r := hinj hwmem hrmem (hwid.trans hrid.symm)
      refine ⟨⟨w.id, w.file_id, w.caption, w.ticket_url, w.venue_map_file_id,
        w.created_at, w.is_active⟩, ?_, hwid, by rw [hwr]; exact hract⟩
      simp [get_poster, hw]

theorem get_poster_ignores_is_active_witness :
    get_poster true [⟨3, "f", none, none, none, 0, false⟩] 3 =
      .ok ⟨3, "f", none, none, none, 0, false⟩ :=
  (get_poster_ignores_is_active [⟨3, "f", none, none, none, 0, false⟩] 3
    (by decide)).1 ⟨3, "f", none, none, none, 0, false⟩ rfl

/-- C5: `update_story` applies exactly the fields present in the patch as
independently-optional assignments and leaves every omitted field of the
row at its prior value (never nulled); an empty patch signals 400
(`InvalidArgument`), and a non-empty patch over a missing id signals 404
(`NotFound`). -/
theorem update_story_partial_patch (AD : List Int) (uid : Int) (st : StoriesState)
    (sid : Int) (p : StoryUpdate) (hadm : uid ∈ AD) :
    (p = ⟨none, none, none⟩ →
      update_story AD uid true sid p st = (.error ⟨400, "No fields to update"⟩, st)) ∧
    (p ≠ ⟨none, none, none⟩ → st.rows.find? (fun r => r.id == sid) = none →
      update_story AD uid true sid p st = (.error ⟨404, "Story not found"⟩, st)) ∧
    (∀ r, p ≠ ⟨none, none, none⟩ → st.rows.find? (fun r => r.id == sid) = some r →
      update_story AD uid true sid p st =
        (.ok ⟨(patchSpec r p).id, (patchSpec r p).file_id, (patchSpec r p).caption,
          (patchSpec r p).order_num, (patchSpec r p).created_at,
          (patchSpec r p).is_active⟩,
         { st with rows := st.rows.map (fun x =>
             if x.id == sid then patchSpec x p else x) })) := by
  have ha : is_admin AD uid = true := by simpa [is_admin] using hadm
  refine ⟨?_, ?_, ?_⟩
  · intro hp
    subst hp
    simp [update_story, ha, buildUpdates]
  · intro hp hf
    have hbu : ¬(buildUpdates p = []) := by
      rw [ne_eq] at hp
      simpa [buildUpdates_eq_nil_iff] using hp
    simp [update_story, ha, hbu, hf]
  · intro r hp hf
    have hbu : ¬(buildUpdates p = []) := by
      rw [ne_eq] at hp
      simpa [buildUpdates_eq_nil_iff] using hp
    simp [update_story, ha, hbu, hf, foldl_buildUpdates_eq_patchSpec]

theorem update_story_partial_patch_witness :
    update_story DEFAULT_ADMIN_IDS 825042510 true 7 ⟨none, some 5, none⟩
        ⟨[⟨7, "f", some "c", none, 3, 0, true⟩], 8, 1⟩ =
      (.ok ⟨7, "f", some "c", 5, 0, true⟩,
        ⟨[⟨7, "f", some "c", none, 5, 0, true⟩], 8, 1⟩) :=
  (update_story_partial_patch DEFAULT_ADMIN_IDS 825042510
    ⟨[⟨7, "f", some "c", none, 3, 0, true⟩], 8, 1⟩ 7 ⟨none, some 5, none⟩
    (by decide)).2.2 ⟨7, "f", some "c", none, 3, 0, true⟩ (by decide) rfl

/-- C1 counterexample: from the empty store, two slot-2 rotations followed
by `update_story` re-activating the first (now rotated-out) story leave
slot 2 with two active stories — `update_story` does not preserve the
one-active-story-per-slot invariant. -/
theorem slot_invariant_update_story_cex :
    slotInv ((create_story_in_slot DEFAULT_ADMIN_IDS 825042510 true 2 "b" none
      (create_story_in_slot DEFAULT_ADMIN_IDS 825042510 true 2 "a" none
        initialStories).2).2.rows) = true ∧
    (update_story DEFAULT_ADMIN_IDS 825042510 true 1 ⟨none, none, some true⟩
      (create_story_in_slot DEFAULT_ADMIN_IDS 825042510 true 2 "b" none
        (create_story_in_slot DEFAULT_ADMIN_IDS 825042510 true 2 "a" none
          initialStories).2).2).1.toOption = some ⟨1, "a", none, 0, 0, true⟩ ∧
    countActiveInSlot ((update_story DEFAULT_ADMIN_IDS 825042510 true 1
      ⟨none, none, some true⟩
      (create_story_in_slot DEFAULT_ADMIN_IDS 825042510 true 2 "b" none
        (create_story_in_slot DEFAULT_ADMIN_IDS 825042510 true 2 "a" none
          initialStories).2).2).2.rows) 2 = 2 ∧
    slotInv ((update_story DEFAULT_ADMIN_IDS 825042510 true 1 ⟨none, none, some true⟩
      (create_story_in_slot DEFAULT_ADMIN_IDS 825042510 true 2 "b" none
        (create_story_in_slot DEFAULT_ADMIN_IDS 825042510 true 2 "a" none
          initialStories).2).2).2.rows) = false := by
  decide

/-- C1 (amended): for each slot in {1,2,3} at most one Story row is active
after `create_story` (whose INSERT leaves `slot_number` NULL),
`delete_story` and `create_story_in_slot` (`replace_slot`), and after
`update_story` whenever the patch does not set `is_active` to true; a
patch re-activating a rotated-out story can break the invariant (see the
counterexample). -/
theorem slot_invariant_preservation (AD : List Int) (uid : Int) (db : Bool)
    (st : StoriesState) (hinv : slotInv st.rows = true) :
    (∀ fid cap onum,
      slotInv ((create_story AD uid db fid cap onum st).2.rows) = true) ∧
    (∀ sid, slotInv ((delete_story AD uid db sid st).2.rows) = true) ∧
    (∀ slot fid cap,
      slotInv ((create_story_in_slot AD uid db slot fid cap st).2.rows) = true) ∧
    (∀ sid p, p.is_active ≠ some true →
      slotInv ((update_story AD uid db sid p st).2.rows) = true) := by
  refine ⟨?_, ?_, ?_, ?_⟩
  · intro fid cap onum
    cases ha : is_admin AD uid with
    | false => simpa [create_story, ha] using hinv
    | true =>
      cases db with
      | false => simpa [create_story, ha] using hinv
      | true =>
        have hrows : (create_story AD uid true fid cap onum st).2.rows =
            st.rows ++ [⟨st.nextId, fid, cap, none, onum, st.now, true⟩] := by
          simp [create_story, ha]
        rw [hrows]
        refine slotInv_of_le (fun s => ?_) hinv
        simp [countActiveInSlot, List.countP_append, List.countP_cons, none_beq_some]
  · intro sid
    cases ha : is_admin AD uid with
    | false => simpa [delete_story, ha] using hinv
    | true =>
      cases db with
      | false => simpa [delete_story, ha] using hinv
      | true =>
        by_cases hlen : (st.rows.filter (fun r => !(r.id == sid))).length = st.rows.length
        · simpa [delete_story, ha, hlen] using hinv
        · have hrows : (delete_story AD uid true sid st).2.rows =
              st.rows.filter (fun r => !(r.id == sid)) := by
            simp [delete_story, ha, hlen]
          rw [hrows]
          refine slotInv_of_le (fun s => ?_) hinv
          simp only [countActiveInSlot]
          exact (List.filter_sublist _).countP_le _
  · intro slot fid cap
    cases ha : is_admin AD uid with
    | false => simpa [create_story_in_slot, ha] using hinv
    | true =>
      by_cases hslot : (slot == 1 || slot == 2 || slot == 3) = true
      · cases db with
        | false => simpa [create_story_in_slot, ha, hslot] using hinv
        | true =>
          have hrows : (create_story_in_slot AD uid true slot fid cap st).2.rows =
              (st.rows.map (fun r =>
                if r.slot_number == some slot && r.is_active then
                  { r with is_active := false } else r)) ++
              [⟨st.nextId, fid, cap, some slot, 0, st.now, true⟩] := by
            simp [create_story_in_slot, ha, hslot]
          rw [hrows]
          simp only [slotInv, List.all_eq_true, decide_eq_true_eq] at hinv ⊢
          intro s hs
          have hbound := hinv s hs
          rw [countActiveInSlot, List.countP_append, List.countP_map]
          by_cases hss : slot = s
          · subst hss
            have hz : List.countP
                ((fun r => r.is_active && r.slot_number == some slot) ∘ (fun r =>
                  if r.slot_number == some slot && r.is_active then
                    { r with is_active := false } else r)) st.rows = 0 := by
              rw [List.countP_eq_zero]
              intro y hy
              simp only [Function.comp]
              cases hsl : (y.slot_number == some slot) with
              | false => simp [hsl]
              | true =>
                cases hact : y.is_active with
                | false => simp [hsl, hact]
                | true => simp [hsl, hact]
            rw [hz]
            simp [countActiveInSlot, List.countP_cons]
          · have h0 : List.countP
                (fun r => r.is_active && r.slot_number == some s)
                [(⟨st.nextId, fid, cap, some slot, 0, st.now, true⟩ : StoryRow)] = 0 := by
              simp [List.countP_cons, hss]
            have hle : List.countP
                ((fun r => r.is_active && r.slot_number == some s) ∘ (fun r =>
                  if r.slot_number == some slot && r.is_active then
                    { r with is_active := false } else r)) st.rows ≤
                List.countP (fun r => r.is_active && r.slot_number == some s) st.rows := by
              apply List.countP_mono_left
              intro y hy
              simp only [Function.comp]
              cases hsl : (y.slot_number == some slot) with
              | false => simp [hsl]
              | true =>
                cases hact : y.is_active with
                | false => simp [hsl, hact]
                | true => simp [hsl, hact]
            rw [h0, Nat.add_zero]
            exact le_trans hle (by simpa [countActiveInSlot] using hbound)
      · have hslot' : (slot == 1 || slot == 2 || slot == 3) = false := by
          simpa using hslot
        cases db with
        | false => simpa [create_story_in_slot, ha, hslot'] using hinv
        | true => simpa [create_story_in_slot, ha, hslot'] using hinv
  · intro sid p hp
    cases ha : is_admin AD uid with
    | false => simpa [update_story, ha] using hinv
    | true =>
      cases db with
      | false => simpa [update_story, ha] using hinv
      | true =>
        by_cases hbu : buildUpdates p = []
        · simpa [update_story, ha, hbu] using hinv
        · cases hf : st.rows.find? (fun r => r.id == sid) with
          | none => simpa [update_story, ha, hbu, hf] using hinv
          | some r =>
            have hrows : (update_story AD uid true sid p st).2.rows =
                st.rows.map (fun x =>
                  if x.id == sid then patchSpec x p else x) := by
              simp [update_story, ha, hbu, hf, foldl_buildUpdates_eq_patchSpec]
            rw [hrows]
            refine slotInv_of_le (fun s => ?_) hinv
            simp only [countActiveInSlot, List.countP_map]
            apply List.countP_mono_left
            intro x hx
            simp only [Function.comp]
            by_cases hid : (x.id == sid) = true
            · rw [if_pos hid]
              cases hia : p.is_active with
              | none =>
                intro hpx
                simpa [patchSpec, hia] using hpx
              | some v =>
                cases v with
                | true => exact absurd hia hp
                | false =>
                  intro hpx
                  simp [patchSpec, hia] at hpx
            · rw [if_neg hid]
              exact id

theorem slot_invariant_preservation_witness :
    slotInv ((create_story DEFAULT_ADMIN_IDS 825042510 true "f" none 0
      initialStories).2.rows) = true :=
  (slot_invariant_preservation DEFAULT_ADMIN_IDS 825042510 true initialStories
    (by decide)).1 "f" none 0

theorem listing_filter_after_rotation (rows : List StoryRow) (slot : Int)
    (new : StoryRow) (hna : new.is_active = true) (hns : new.slot_number = some slot) :
    (((sortBySlot (((rows.map (fun r =>
          if r.slot_number == some slot && r.is_active then
            { r with is_active := false } else r)) ++ [new]).filter
          (fun r => r.is_active))).map storyView).filter
        (fun v => v.slot_number == some slot)).map (fun v => v.file_id) =
      [new.file_id] := by
  rw [List.filter_map, List.map_map]
  have hfilter : (sortBySlot (((rows.map (fun r =>
      if r.slot_number == some slot && r.is_active then
        { r with is_active := false } else r)) ++ [new]).filter
      (fun r => r.is_active))).filter
      ((fun v => v.slot_number == some slot) ∘ storyView) = [new] := by
    apply List.perm_singleton.mp
    refine ((sortLe_perm (fun a b => slotLe a.slot_number b.slot_number) _).filter
      ((fun v => v.slot_number == some slot) ∘ storyView)).trans ?_
    have hsplit : ((rows.map (fun r =>
        if r.slot_number == some slot && r.is_active then
          { r with is_active := false } else r)) ++ [new]).filter
        (fun r => r.is_active) =
        ((rows.map (fun r =>
          if r.slot_number == some slot && r.is_active then
            { r with is_active := false } else r)).filter (fun r => r.is_active)) ++
        [new] := by
      rw [List.filter_append]
      simp [hna]
    rw [hsplit, List.filter_append]
    have h1 : (((rows.map (fun r =>
        if r.slot_number == some slot && r.is_active then
          { r with is_active := false } else r)).filter (fun r => r.is_active)).filter
        ((fun v => v.slot_number == some slot) ∘ storyView)) = [] := by
      rw [List.filter_eq_nil_iff]
      intro a ha
      have hmem := List.mem_filter.mp ha
      obtain ⟨y, hy, rfl⟩ := List.mem_map.mp hmem.1
      have hact := hmem.2
      cases hsl : (y.slot_number == some slot) with
      | false => simp [Function.comp, storyView, hsl]
      | true =>
        cases hact2 : y.is_active with
        | true =>
          exfalso
          rw [if_pos (by simp [hsl, hact2])] at hact
          simp at hact
        | false =>
          exfalso
          rw [if_neg (by simp [hsl, hact2])] at hact
          exact absurd hact (by simp [hact2])
    have h2 : (([new]).filter ((fun v => v.slot_number == some slot) ∘ storyView)) =
        [new] := by
      simp [Function.comp, storyView, hns]
    rw [h1, h2, List.nil_append]
  rw [hfilter]
  simp [Function.comp, storyView]

/-- C2: for an admin caller, `create_story_in_slot` (the spec's
`replace_slot`) rejects a slot outside {1,2,3} with 400 before any store
access — the state comes back unchanged whatever the store availability;
for a slot in {1,2,3} it completes and the story listing then contains
exactly one story in that slot, carrying the new image reference; and
rotating slots 1, 2, 3 once each from the empty store makes `GET /stories`
return exactly 3 active stories ordered [1, 2, 3]. -/
theorem replace_slot_rotation (AD : List Int) (uid : Int) (st : StoriesState)
    (slot : Int) (fid : String) (cap : Option String) (hadm : uid ∈ AD) :
    (∀ db, slot ≠ 1 → slot ≠ 2 → slot ≠ 3 →
      create_story_in_slot AD uid db slot fid cap st =
        (.error ⟨400, "Slot number must be 1, 2, or 3"⟩, st)) ∧
    ((slot = 1 ∨ slot = 2 ∨ slot = 3) →
      ∃ vs, get_stories true (create_story_in_slot AD uid true slot fid cap st).2 =
          .ok vs ∧
        (vs.filter (fun v => v.slot_number == some slot)).map (fun v => v.file_id) =
          [fid]) ∧
    get_stories true
        ((create_story_in_slot DEFAULT_ADMIN_IDS 825042510 true 3 "c" none
          ((create_story_in_slot DEFAULT_ADMIN_IDS 825042510 true 2 "b" none
            ((create_story_in_slot DEFAULT_ADMIN_IDS 825042510 true 1 "a" none
              initialStories).2)).2)).2) =
      .ok [⟨1, "a", "/photo/a", none, some 1, 0, true⟩,
           ⟨2, "b", "/photo/b", none, some 2, 1, true⟩,
           ⟨3, "c", "/photo/c", none, some 3, 2, true⟩] := by
  have ha : is_admin AD uid = true := by simpa [is_admin] using hadm
  refine ⟨?_, ?_, by rfl⟩
  · intro db h1 h2 h3
    have hs : (slot == 1 || slot == 2 || slot == 3) = false := by
      simp [h1, h2, h3]
    simp [create_story_in_slot, ha, hs]
  · intro hs
    have hg : (slot == 1 || slot == 2 || slot == 3) = true := by
      rcases hs with rfl | rfl | rfl <;> rfl
    have hst : (create_story_in_slot AD uid true slot fid cap st).2 =
        ⟨(st.rows.map (fun r =>
            if r.slot_number == some slot && r.is_active then
              { r with is_active := false } else r)) ++
          [⟨st.nextId, fid, cap, some slot, 0, st.now, true⟩],
         st.nextId + 1, st.now + 1⟩ := by
      simp [create_story_in_slot, ha, hg]
    rw [hst]
    exact ⟨_, rfl,
      listing_filter_after_rotation st.rows slot
        ⟨st.nextId, fid, cap, some slot, 0, st.now, true⟩ rfl rfl⟩

theorem replace_slot_rotation_witness :
    ∃ vs, get_stories true (create_story_in_slot DEFAULT_ADMIN_IDS 825042510 true 2
        "r" none initialStories).2 = .ok vs ∧
      (vs.filter (fun v => v.slot_number == some 2)).map (fun v => v.file_id) =
        ["r"] :=
  (replace_slot_rotation DEFAULT_ADMIN_IDS 825042510 initialStories 2 "r" none
    (by decide)).2.1 (Or.inr (Or.inl rfl))

end Euphoria
